import Mathlib

/-!
Shallow embedding of the reconciliation scripts
`aoai/ptu-resource-automation/create-automation.py` (v1) and
`aoai/ptu-resource-automation/create-automation-v2.py` (v2).

Python strings are modelled as `List Char` (code-point sequences); Python
string comparison, upper/lower casing and concatenation are modelled by
code-point-wise operations, which agrees with CPython on the ASCII data
these scripts handle.  The remote control plane (Azure SDK clients) is an
external collaborator: each embedded operation takes the relevant remote
state (or oracle answers such as "does the resource exist") as explicit
arguments and returns, besides its result, the list of remote calls it
issued, in order.  Randomness (`uuid.uuid4()`) is an explicit argument.
-/

namespace AzureAutomation

instance {ε α : Type} [DecidableEq ε] [DecidableEq α] : DecidableEq (Except ε α)
  | .ok a, .ok b =>
    if h : a = b then .isTrue (by rw [h]) else .isFalse (by simp [h])
  | .ok _, .error _ => .isFalse (by simp)
  | .error _, .ok _ => .isFalse (by simp)
  | .error e, .error f =>
    if h : e = f then .isTrue (by rw [h]) else .isFalse (by simp [h])

/-- Python `str` modelled as a list of code points. -/
abbrev PyStr := List Char

/-- Python code-point-wise string order (`a <= b`). -/
def pyLe : PyStr → PyStr → Bool
  | [], _ => true
  | _ :: _, [] => false
  | c :: cs, d :: ds => if c = d then pyLe cs ds else decide (c.toNat < d.toNat)

/-- Python `str.upper()` (ASCII-faithful). -/
def pyUpper (s : PyStr) : PyStr := s.map Char.toUpper

/-- Python `str.lower()` (ASCII-faithful). -/
def pyLower (s : PyStr) : PyStr := s.map Char.toLower

/-- Python `s.endswith('Z')`: the last code point is `Z`. -/
def endsWithZ (s : PyStr) : Bool := s.getLast? == some 'Z'

/-- JSON-serialisable scalar values appearing in the desired-state inputs
(variable values, schedule parameters). -/
inductive Value where
  | str (s : PyStr)
  | int (n : Int)
  | bool (b : Bool)
  deriving DecidableEq, Repr

/-- Python `str(value)` coercion, as applied to parameter-bag values
before transmission. -/
def Value.pyStr : Value → PyStr
  | .str s => s
  | .int n => (toString n).data
  | .bool b => if b then "True".data else "False".data

/-- Python `json.dumps(value)` for the scalar values above (quoting with
the two common escapes; sufficient for the variable payloads modelled). -/
def json_dumps : Value → PyStr
  | .str s => '"' :: (s.flatMap fun c =>
      if c = '"' then ['\\', '"'] else if c = '\\' then ['\\', '\\'] else [c]) ++ ['"']
  | .int n => (toString n).data
  | .bool b => if b then "true".data else "false".data

/-! ## Calendar arithmetic (for `datetime` / `zoneinfo`)

`datetime.fromisoformat`, `astimezone(timezone.utc)` and
`strftime('%Y-%m-%dT%H:%M:%SZ')` are modelled over a proleptic-Gregorian
civil datetime record via epoch-second arithmetic (standard
days-from-civil / civil-from-days algorithms). -/

/-- A naive civil datetime at second precision. -/
structure DateTime where
  year : Int
  month : Nat
  day : Nat
  hour : Nat
  minute : Nat
  second : Nat
  deriving DecidableEq, Repr

def isLeapYear (y : Int) : Bool :=
  (y % 4 = 0 && y % 100 ≠ 0) || y % 400 = 0

def daysInMonth (y : Int) (m : Nat) : Nat :=
  if m = 2 then (if isLeapYear y then 29 else 28)
  else if m = 4 || m = 6 || m = 9 || m = 11 then 30
  else 31

/-- Days since 1970-01-01 of a civil date (Gregorian, valid for all years). -/
def daysFromCivil (y : Int) (m : Nat) (d : Nat) : Int :=
  let y' : Int := if m ≤ 2 then y - 1 else y
  let era : Int := (if 0 ≤ y' then y' else y' - 399) / 400
  let yoe : Int := y' - era * 400
  let mp : Int := (Int.ofNat m + 9) % 12
  let doy : Int := (153 * mp + 2) / 5 + Int.ofNat d - 1
  let doe : Int := yoe * 365 + yoe / 4 - yoe / 100 + doy
  era * 146097 + doe - 719468

/-- Civil date from days since 1970-01-01 (inverse of `daysFromCivil`). -/
def civilFromDays (z0 : Int) : Int × Nat × Nat :=
  let z : Int := z0 + 719468
  let era : Int := (if 0 ≤ z then z else z - 146096) / 146097
  let doe : Int := z - era * 146097
  let yoe : Int := (doe - doe / 1460 + doe / 36524 - doe / 146096) / 365
  let y : Int := yoe + era * 400
  let doy : Int := doe - (365 * yoe + yoe / 4 - yoe / 100)
  let mp : Int := (5 * doy + 2) / 153
  let d : Int := doy - (153 * mp + 2) / 5 + 1
  let m : Int := if mp < 10 then mp + 3 else mp - 9
  (if m ≤ 2 then y + 1 else y, m.toNat, d.toNat)

/-- Seconds since the epoch of a naive civil datetime. -/
def toEpochSeconds (dt : DateTime) : Int :=
  daysFromCivil dt.year dt.month dt.day * 86400
    + Int.ofNat (dt.hour * 3600 + dt.minute * 60 + dt.second)

/-- Naive civil datetime from seconds since the epoch. -/
def fromEpochSeconds (z : Int) : DateTime :=
  let days : Int := z.fdiv 86400
  let sod : Nat := (z.fmod 86400).toNat
  let c := civilFromDays days
  { year := c.1, month := c.2.1, day := c.2.2
    hour := sod / 3600, minute := sod % 3600 / 60, second := sod % 60 }

/-- Digit-list to number (all characters must be ASCII digits). -/
def digitsToNat : List Char → Option Nat
  | [] => some 0
  | c :: cs =>
    if c.isDigit then
      (digitsToNat cs).map fun rest => rest + c.toNat.sub '0'.toNat * 10 ^ cs.length
    else none

/-- `datetime.fromisoformat` modelled for the canonical 19-character naive
form `YYYY-MM-DDTHH:MM:SS` handled by these scripts; other inputs are
rejected (modelled as the parse error CPython raises on invalid input). -/
def fromisoformat (s : PyStr) : Option DateTime :=
  match s with
  | [y1, y2, y3, y4, '-', m1, m2, '-', d1, d2, 'T',
     h1, h2, ':', n1, n2, ':', s1, s2] => do
    let y ← digitsToNat [y1, y2, y3, y4]
    let m ← digitsToNat [m1, m2]
    let d ← digitsToNat [d1, d2]
    let h ← digitsToNat [h1, h2]
    let n ← digitsToNat [n1, n2]
    let sec ← digitsToNat [s1, s2]
    if 1 ≤ m && m ≤ 12 && 1 ≤ d && d ≤ daysInMonth (Int.ofNat y) m
        && h ≤ 23 && n ≤ 59 && sec ≤ 59 then
      some ⟨Int.ofNat y, m, d, h, n, sec⟩
    else none
  | _ => none

/-- Left-pad a numeral with zeros to the given width. -/
def padNum (width n : Nat) : PyStr :=
  let s := (toString n).data
  List.replicate (width - s.length) '0' ++ s

/-- `strftime('%Y-%m-%dT%H:%M:%SZ')` (years of the data at hand are
four-digit). -/
def strftimeZ (dt : DateTime) : PyStr :=
  (padNum 4 dt.year.toNat ++ '-' :: padNum 2 dt.month ++ '-' :: padNum 2 dt.day
    ++ 'T' :: padNum 2 dt.hour ++ ':' :: padNum 2 dt.minute
    ++ ':' :: padNum 2 dt.second) ++ ['Z']

/-- The IANA zone database behind `zoneinfo.ZoneInfo`: an external input.
A zone name resolves to `none` (unknown zone, `ZoneInfo` raises) or to the
zone's UTC offset in seconds as a function of the local datetime (the
database is DST-aware, so the offset may depend on the date). -/
def Tzdb := PyStr → Option (DateTime → Int)

/-- The zone test `not time_zone or time_zone.upper() == "UTC"`. -/
def is_utc_zone (time_zone : PyStr) : Bool :=
  time_zone.isEmpty || pyUpper time_zone == "UTC".data

/-- `convert_to_utc(iso_str, time_zone)` from v1 lines 183-189: if the zone
is falsy or upper-cases to `UTC`, ensure a trailing `Z`; otherwise parse
the timestamp as naive local time in the zone, convert to UTC and format
to second precision with a trailing `Z`.  Errors model the exceptions
raised by `fromisoformat` / `ZoneInfo`. -/
def convert_to_utc (tzdb : Tzdb) (iso_str time_zone : PyStr) :
    Except PyStr PyStr :=
  if is_utc_zone time_zone then
    .ok (if endsWithZ iso_str then iso_str else iso_str ++ ['Z'])
  else
    match fromisoformat iso_str with
    | none => .error ("Invalid isoformat string: ".data ++ iso_str)
    | some local_dt =>
      match tzdb time_zone with
      | none => .error ("No time zone found with key ".data ++ time_zone)
      | some offset =>
        .ok (strftimeZ (fromEpochSeconds (toEpochSeconds local_dt - offset local_dt)))

/-! ## Desired-state records and Python dict operations -/

/-- A desired schedule, as loaded from the schedules JSON.  Required keys
(`RunbookName`, `Frequency`, `StartTime`) are plain fields; keys read with
`.get(...)` or guarded by `in` are `Option`s. -/
structure ScheduleDef where
  RunbookName : PyStr
  Frequency : PyStr
  StartTime : PyStr
  Description : Option PyStr := none
  Interval : Option Int := none
  TimeZone : Option PyStr := none
  EndTime : Option PyStr := none
  IsEnabled : Option Bool := none
  Parameters : Option (List (PyStr × Value)) := none
  deriving DecidableEq, Repr

/-- Python `d[k] = v` on a dict modelled as an insertion-ordered
association list: overwrite in place if the key exists, append otherwise. -/
def dictSet (d : List (PyStr × Value)) (k : PyStr) (v : Value) :
    List (PyStr × Value) :=
  match d with
  | [] => [(k, v)]
  | (k', v') :: rest =>
    if k' = k then (k', v) :: rest else (k', v') :: dictSet rest k v

/-- Python `d.update(other)`: each entry of `other` is written into `d`
in order. -/
def dict_update (d other : List (PyStr × Value)) : List (PyStr × Value) :=
  other.foldl (fun acc kv => dictSet acc kv.1 kv.2) d

/-- The `params_payload` expression of the link-creation code:
`{ key: str(value) for key, value in parameters.items() } if parameters
else {}`. -/
def link_params_payload (parameters : List (PyStr × Value)) :
    List (PyStr × PyStr) :=
  if parameters.isEmpty then [] else parameters.map fun kv => (kv.1, kv.2.pyStr)

/-! ## v1 `ensure_schedule` (create-automation.py lines 191-238) -/

/-- The properties dict passed to `schedule.create_or_update`
(`advanced_schedule` is always `None` and is omitted). -/
structure ScheduleProps where
  name : PyStr
  description : PyStr
  start_time : PyStr
  expiry_time : Option PyStr
  frequency : PyStr
  interval : Option Int
  time_zone : PyStr
  deriving DecidableEq, Repr

/-- Remote calls issued against the schedule resource. -/
inductive SchedCall where
  | get (name : PyStr)
  | create_or_update (name : PyStr) (props : ScheduleProps)
  | update (name : PyStr) (is_enabled : Bool)
  deriving DecidableEq, Repr

def SchedCall.isMutation : SchedCall → Bool
  | .get _ => false
  | .create_or_update _ _ => true
  | .update _ _ => true

/-- v1 `ensure_schedule`.  `present` answers the remote `get` (`false`
models `ResourceNotFoundError`); `created_is_enabled` is the `is_enabled`
attribute of the schedule object returned by `create_or_update` (the
remote decides it, possibly `None`).  Returns the issued calls in order
and the outcome; exceptions carry no calls issued after the raise. -/
def ensure_schedule (tzdb : Tzdb) (present : Bool)
    (created_is_enabled : Option Bool) (name : PyStr)
    (schedule_def : ScheduleDef) : List SchedCall × Except PyStr Unit :=
  let frequency := schedule_def.Frequency
  let interval := schedule_def.Interval
  let time_zone := schedule_def.TimeZone.getD "UTC".data
  let start_time := schedule_def.StartTime
  let end_time := schedule_def.EndTime
  match convert_to_utc tzdb start_time time_zone with
  | .error e => ([], .error e)
  | .ok start_time_utc =>
    let end_res : Except PyStr (Option PyStr) :=
      match end_time with
      | some et =>
        if et.isEmpty then .ok none
        else (convert_to_utc tzdb et time_zone).map some
      | none => .ok none
    match end_res with
    | .error e => ([], .error e)
    | .ok end_time_utc =>
      let proceed : List SchedCall × Except PyStr Unit :=
        if present then
          ([SchedCall.get name], .ok ())
        else
          let props : ScheduleProps :=
            { name, description := [], start_time := start_time_utc,
              expiry_time := end_time_utc, frequency, interval, time_zone }
          let is_enabled := schedule_def.IsEnabled.getD true
          if created_is_enabled ≠ some is_enabled then
            ([SchedCall.get name, SchedCall.create_or_update name props,
              SchedCall.update name is_enabled], .ok ())
          else
            ([SchedCall.get name, SchedCall.create_or_update name props], .ok ())
      match end_time_utc with
      | some etu =>
        if pyLe etu start_time_utc then
          ([], .error ("EndTime ".data ++ end_time.getD [] ++
            " must be after StartTime ".data ++ start_time))
        else proceed
      | none => proceed

/-! ## v1 `ensure_schedule_link` (lines 240-262) and the identical link
logic of v2 `ensure_schedule_and_link` (lines 210-227) -/

/-- A job-schedule link as held by the remote account. -/
structure JobSchedule where
  job_schedule_id : PyStr
  schedule_name : PyStr
  runbook_name : PyStr
  parameters : List (PyStr × PyStr)
  deriving DecidableEq, Repr

inductive LinkCall where
  | list_by_automation_account
  | create (job_schedule_id schedule_name runbook_name : PyStr)
      (parameters : List (PyStr × PyStr))
  deriving DecidableEq, Repr

def LinkCall.isCreate : LinkCall → Bool
  | .list_by_automation_account => false
  | .create _ _ _ _ => true

/-- v1 `ensure_schedule_link`.  `links` is the remote link list returned
by `list_by_automation_account`; `uuid` the fresh `uuid.uuid4()`.  Returns
the schedule definition as it stands after the call (NOTE:
`schedule_def.get("Parameters", {})` aliases the schedule's own dict when
the key is declared, so `parameters.update(params or {})` mutates it in
place; `update` with an empty dict is a no-op, so `params or \x7b\x7d`
merges like `params`), the calls issued, and the resulting link list. -/
def ensure_schedule_link (links : List JobSchedule) (uuid : PyStr)
    (name : PyStr) (schedule_def : ScheduleDef)
    (params : List (PyStr × Value)) :
    ScheduleDef × List LinkCall × List JobSchedule :=
  let runbook_name := schedule_def.RunbookName
  let parameters := dict_update (schedule_def.Parameters.getD []) params
  let schedule_defAfter : ScheduleDef :=
    match schedule_def.Parameters with
    | some _ => { schedule_def with Parameters := some parameters }
    | none => schedule_def
  let existing_links := links.filter fun js =>
    js.schedule_name == name && js.runbook_name == runbook_name
  if !existing_links.isEmpty then
    (schedule_defAfter, [LinkCall.list_by_automation_account], links)
  else
    let params_payload := link_params_payload parameters
    (schedule_defAfter,
     [LinkCall.list_by_automation_account,
      LinkCall.create uuid name runbook_name params_payload],
     links ++ [{ job_schedule_id := uuid, schedule_name := name,
                 runbook_name := runbook_name, parameters := params_payload }])

/-! ## v2 `ensure_schedule_and_link` (create-automation-v2.py lines 181-227) -/

/-- The properties dict v2 passes to `schedule.create_or_update` (the raw
`StartTime`, unconverted; no expiry). -/
structure V2ScheduleProps where
  name : PyStr
  description : PyStr
  start_time : PyStr
  frequency : PyStr
  interval : Int
  time_zone : PyStr
  deriving DecidableEq, Repr

inductive V2Call where
  | schedule_get (name : PyStr)
  | schedule_create_or_update (name : PyStr) (props : V2ScheduleProps)
  | job_schedule_list
  | job_schedule_create (job_schedule_id schedule_name runbook_name : PyStr)
      (parameters : List (PyStr × PyStr))
  deriving DecidableEq, Repr

def V2Call.isScheduleMutation : V2Call → Bool
  | .schedule_create_or_update _ _ => true
  | _ => false

def V2Call.isLinkCreate : V2Call → Bool
  | .job_schedule_create _ _ _ _ => true
  | _ => false

/-- v2 `ensure_schedule_and_link`.  `schedule_def["Interval"]` raises
`KeyError` when the key is absent (before any remote call); the
`Parameters` aliasing/mutation is as in v1. -/
def ensure_schedule_and_link (present : Bool) (links : List JobSchedule)
    (uuid : PyStr) (name : PyStr) (schedule_def : ScheduleDef)
    (params : List (PyStr × Value)) :
    ScheduleDef × List V2Call × List JobSchedule × Except PyStr Unit :=
  let runbook_name := schedule_def.RunbookName
  let start_time := schedule_def.StartTime
  let frequency := schedule_def.Frequency
  match schedule_def.Interval with
  | none => (schedule_def, [], links, .error "KeyError: Interval".data)
  | some interval =>
    let time_zone := schedule_def.TimeZone.getD "UTC".data
    let parameters := dict_update (schedule_def.Parameters.getD []) params
    let schedule_defAfter : ScheduleDef :=
      match schedule_def.Parameters with
      | some _ => { schedule_def with Parameters := some parameters }
      | none => schedule_def
    let schedCalls : List V2Call :=
      if present then [V2Call.schedule_get name]
      else [V2Call.schedule_get name,
            V2Call.schedule_create_or_update name
              { name, description := [], start_time, frequency, interval, time_zone }]
    let existing_links := links.filter fun js =>
      js.schedule_name == name && js.runbook_name == runbook_name
    if !existing_links.isEmpty then
      (schedule_defAfter, schedCalls ++ [V2Call.job_schedule_list], links, .ok ())
    else
      let params_payload := link_params_payload parameters
      (schedule_defAfter,
       schedCalls ++ [V2Call.job_schedule_list,
         V2Call.job_schedule_create uuid name runbook_name params_payload],
       links ++ [{ job_schedule_id := uuid, schedule_name := name,
                   runbook_name := runbook_name, parameters := params_payload }],
       .ok ())

/-! ## `find_role_definition_id` / `ensure_role_assignment`
(identical in both scripts: v1 lines 56-81, v2 lines 54-79) -/

structure RoleDefinition where
  id : PyStr
  deriving DecidableEq, Repr

structure RoleAssignment where
  principal_id : PyStr
  role_definition_id : PyStr
  deriving DecidableEq, Repr

/-- `find_role_definition_id`: the server already filters by
`roleName eq '...'`, so `role_defs` is the filtered listing at the scope;
the function returns the id of the first entry and raises when the
listing is empty. -/
def find_role_definition_id (role_defs : List RoleDefinition) :
    Except PyStr PyStr :=
  match role_defs with
  | rd :: _ => .ok rd.id
  | [] => .error "Role definition not found".data

inductive RoleCall where
  | role_definitions_list
  | role_assignments_list_for_scope
  | role_assignments_create (assignment_name principal_id role_definition_id : PyStr)
  deriving DecidableEq, Repr

def RoleCall.isCreate : RoleCall → Bool
  | .role_assignments_create _ _ _ => true
  | _ => false

/-- `ensure_role_assignment`.  `existing_ras` is the assignment listing at
the scope; `uuid` the fresh `uuid.uuid4()` assignment name. -/
def ensure_role_assignment (role_defs : List RoleDefinition)
    (existing_ras : List RoleAssignment) (uuid : PyStr)
    (principal_id : PyStr) : List RoleCall × Except PyStr Unit :=
  match find_role_definition_id role_defs with
  | .error e => ([RoleCall.role_definitions_list], .error e)
  | .ok role_def_id =>
    let existing := existing_ras.filter fun ra =>
      ra.principal_id == principal_id &&
        pyLower ra.role_definition_id == pyLower role_def_id
    if !existing.isEmpty then
      ([RoleCall.role_definitions_list,
        RoleCall.role_assignments_list_for_scope], .ok ())
    else
      ([RoleCall.role_definitions_list,
        RoleCall.role_assignments_list_for_scope,
        RoleCall.role_assignments_create uuid principal_id role_def_id], .ok ())

/-! ## `ensure_automation_account` (v1 lines 83-119, v2 lines 81-117) -/

/-- The identity attribute of the resource returned by the
identity-enabling update. -/
structure ManagedIdentity where
  type : Option PyStr := none
  principal_id : Option PyStr := none
  deriving DecidableEq, Repr

inductive AcctCall where
  | automation_account_get
  | automation_account_create_or_update (location sku : PyStr)
  | begin_update_by_id_identity
  | sleep (seconds : Nat)
  | role (c : RoleCall)
  deriving DecidableEq, Repr

/-- `ensure_automation_account`.  `present` answers the account `get`.
On the found branch the code only prints guidance and returns the account:
it inspects no identity and issues no update.  On the `NotFound` branch it
creates the account, issues the SystemAssigned identity update (awaited),
sleeps 30s, and fails if the update result carries no truthy principal id;
otherwise it runs `ensure_role_assignment` with that principal id. -/
def ensure_automation_account (present : Bool) (location : PyStr)
    (identity_update_result : ManagedIdentity)
    (role_defs : List RoleDefinition) (existing_ras : List RoleAssignment)
    (uuid : PyStr) : List AcctCall × Except PyStr Unit :=
  if present then
    ([AcctCall.automation_account_get], .ok ())
  else
    let base := [AcctCall.automation_account_get,
      AcctCall.automation_account_create_or_update location "Basic".data,
      AcctCall.begin_update_by_id_identity, AcctCall.sleep 30]
    let truthy_pid : Option PyStr :=
      match identity_update_result.principal_id with
      | none => none
      | some pid => if pid.isEmpty then none else some pid
    match truthy_pid with
    | none => (base, .error "Managed identity was not assigned properly".data)
    | some pid =>
      let r := ensure_role_assignment role_defs existing_ras uuid pid
      (base ++ r.1.map AcctCall.role, r.2)

/-! ## `create_variables` (v1 lines 121-138, v2 lines 119-138) -/

/-- A desired variable (an entry of the loaded variables JSON map). -/
structure VarDef where
  name : PyStr
  Value : Value
  Encrypted : Option Bool := none
  deriving DecidableEq, Repr

/-- The properties dict passed to `variable.create_or_update`. -/
structure VariableProps where
  name : PyStr
  value : PyStr
  is_encrypted : Bool
  description : PyStr
  deriving DecidableEq, Repr

def variable_props (v : VarDef) : VariableProps :=
  { name := v.name, value := json_dumps v.Value,
    is_encrypted := v.Encrypted.getD false, description := [] }

/-- `create_variables`: iterate the desired variables in order,
unconditionally upserting each.  `create_or_update` is the remote upsert
oracle; the first raised error stops the loop and propagates.  Returns the
names attempted, in order. -/
def create_variables {ε : Type} (create_or_update : VariableProps → Except ε Unit) :
    List VarDef → List PyStr × Except ε Unit
  | [] => ([], .ok ())
  | v :: rest =>
    match create_or_update (variable_props v) with
    | .error e => ([v.name], .error e)
    | .ok _ =>
      let r := create_variables create_or_update rest
      (v.name :: r.1, r.2)

/-! ## `run_step` (v1 lines 140-150) and `main` (v1 lines 264-275) -/

/-- `run_step`: logs, executes the wrapped step on the current remote
state, and on failure re-raises the exception unchanged (the `except`
clause is a bare `raise`). -/
def run_step {σ ε : Type} (fn : σ → σ × Except ε Unit) (s : σ) :
    σ × Except ε Unit :=
  match fn s with
  | (s₁, .ok _) => (s₁, .ok ())
  | (s₁, .error e) => (s₁, .error e)

/-- The step sequencing of `main`'s `try` block: steps run in order, each
through `run_step`; the first exception aborts the remaining steps. -/
def run_steps {σ ε : Type} (steps : List (σ → σ × Except ε Unit)) (s : σ) :
    σ × Except ε Unit :=
  match steps with
  | [] => (s, .ok ())
  | fn :: rest =>
    match run_step fn s with
    | (s₁, .ok _) => run_steps rest s₁
    | (s₁, .error e) => (s₁, .error e)

/-- `main`: on any exception, `sys.exit(1)`; otherwise the process ends
with status 0.  Returns the final remote state (no rollback) and the exit
status. -/
def main_exit {σ ε : Type} (steps : List (σ → σ × Except ε Unit)) (s : σ) :
    σ × Nat :=
  match run_steps steps s with
  | (s₁, .ok _) => (s₁, 0)
  | (s₁, .error _) => (s₁, 1)

/-! ## `import_and_publish_runbook` (v1 lines 156-181, v2 lines 154-179) -/

inductive RunbookCall where
  | read_file (path : PyStr)
  | runbook_get (name : PyStr)
  | runbook_create_or_update (name runbook_type : PyStr)
      (log_verbose log_progress : Bool)
  | begin_replace_content (name content : PyStr)
  | begin_publish (name : PyStr)
  | poller_result (name : PyStr)
  deriving DecidableEq, Repr

def RunbookCall.isReplaceContent : RunbookCall → Bool
  | .begin_replace_content _ _ => true
  | _ => false

def RunbookCall.isPublish : RunbookCall → Bool
  | .begin_publish _ => true
  | .poller_result _ => true
  | _ => false

/-- `import_and_publish_runbook`.  `fs` is the file system (the source
body is re-read on every invocation); `present` answers the runbook `get`.
Both the found and the `NotFound` branch fall through to the draft
content replacement and the publish, whose poller is awaited
(`poller.result()`) before returning. -/
def import_and_publish_runbook (fs : PyStr → PyStr) (present : Bool)
    (runbook_name file_path : PyStr) : List RunbookCall :=
  let content := fs file_path
  (RunbookCall.read_file file_path :: RunbookCall.runbook_get runbook_name ::
    (if present then []
     else [RunbookCall.runbook_create_or_update runbook_name
             "PowerShell72".data true true]))
  ++ [RunbookCall.begin_replace_content runbook_name content,
      RunbookCall.begin_publish runbook_name,
      RunbookCall.poller_result runbook_name]

/-! ## Helper notions for the verification -/

/-- Python `d.get(k)` on an insertion-ordered association list (first — in
a dict, only — occurrence of the key). -/
def dictGet {β : Type} (d : List (PyStr × β)) (k : PyStr) : Option β :=
  match d with
  | [] => none
  | (k', v) :: rest => if k' = k then some v else dictGet rest k

/-- Number of remote links held for a given (schedule, runbook) pair,
counted by the same predicate `ensure_schedule_link` filters with. -/
def countLinks (links : List JobSchedule) (s r : PyStr) : Nat :=
  (links.filter fun js => js.schedule_name == s && js.runbook_name == r).length

theorem dictGet_dictSet (d : List (PyStr × Value)) (k : PyStr) (v : Value)
    (k' : PyStr) :
    dictGet (dictSet d k v) k' = if k = k' then some v else dictGet d k' := by
  induction d with
  | nil =>
    by_cases h : k = k' <;> simp [dictSet, dictGet, h]
  | cons kv rest ih =>
    obtain ⟨k₀, v₀⟩ := kv
    by_cases h0 : k₀ = k
    · subst h0
      by_cases h : k₀ = k' <;> simp [dictSet, dictGet, h]
    · by_cases h : k₀ = k'
      · subst h
        simp [dictSet, dictGet, h0, Ne.symm h0]
      · simp [dictSet, dictGet, h0, h, ih]

theorem dictGet_eq_none_of_not_mem (d : List (PyStr × Value)) (k : PyStr)
    (h : k ∉ d.map Prod.fst) : dictGet d k = none := by
  induction d with
  | nil => rfl
  | cons kv rest ih =>
    simp only [List.map_cons, List.mem_cons] at h
    push_neg at h
    simp [dictGet, Ne.symm h.1, ih h.2]

/-- `d.update(other)` followed by a key lookup: entries of `other` win. -/
theorem dictGet_dict_update (d other : List (PyStr × Value)) (k : PyStr)
    (h : (other.map Prod.fst).Nodup) :
    dictGet (dict_update d other) k = (dictGet other k).or (dictGet d k) := by
  induction other generalizing d with
  | nil => simp [dict_update, dictGet]
  | cons kv rest ih =>
    obtain ⟨k₀, v₀⟩ := kv
    simp only [List.map_cons, List.nodup_cons] at h
    have step : dict_update d ((k₀, v₀) :: rest) = dict_update (dictSet d k₀ v₀) rest := rfl
    rw [step, ih _ h.2]
    by_cases hk : k₀ = k
    · subst hk
      have : dictGet rest k₀ = none :=
        dictGet_eq_none_of_not_mem rest k₀ h.1
      simp [dictGet, this, dictGet_dictSet]
    · simp [dictGet, hk, dictGet_dictSet]

theorem dictGet_map_pyStr (d : List (PyStr × Value)) (k : PyStr) :
    dictGet (d.map fun kv => (kv.1, kv.2.pyStr)) k = (dictGet d k).map Value.pyStr := by
  induction d with
  | nil => rfl
  | cons kv rest ih =>
    by_cases h : kv.1 = k <;> simp [dictGet, h, ih]

theorem dictGet_link_params_payload (d : List (PyStr × Value)) (k : PyStr) :
    dictGet (link_params_payload d) k = (dictGet d k).map Value.pyStr := by
  rcases d with _ | ⟨kv, rest⟩
  · rfl
  · rw [link_params_payload]
    simp only [List.isEmpty_cons, Bool.false_eq_true, if_false]
    exact dictGet_map_pyStr _ k

theorem countLinks_append_single (links : List JobSchedule) (js : JobSchedule)
    (s r : PyStr) :
    countLinks (links ++ [js]) s r =
      countLinks links s r +
        (if js.schedule_name == s && js.runbook_name == r then 1 else 0) := by
  simp only [countLinks, List.filter_append, List.length_append]
  by_cases h : (js.schedule_name == s && js.runbook_name == r) = true <;>
    simp [List.filter, h]

/-! ## Claim theorems -/

/-- C7: the parameter bag transmitted on link creation is the merge of the
schedule-declared parameters with the caller-supplied parameters, the
caller-supplied value winning on every key present in both, and every
transmitted value is the Python string coercion of the merged value. -/
theorem link_parameters_merge_caller_wins
    (sched caller : List (PyStr × Value)) (k : PyStr)
    (h : (caller.map Prod.fst).Nodup) :
    dictGet (link_params_payload (dict_update sched caller)) k =
      ((dictGet caller k).or (dictGet sched k)).map Value.pyStr := by
  rw [dictGet_link_params_payload, dictGet_dict_update sched caller k h]

/-- Witness for C7 at a concrete collision: schedule declares
`a=1, k="old"`, the caller supplies `k=2`; the transmitted value for `k`
is the string form of the caller's value. -/
theorem link_parameters_merge_caller_wins_witness :
    ((([("k".data, Value.int 2)] : List (PyStr × Value)).map Prod.fst).Nodup) ∧
    dictGet (link_params_payload (dict_update
        [("a".data, Value.int 1), ("k".data, Value.str "old".data)]
        [("k".data, Value.int 2)])) "k".data
      = ((dictGet [("k".data, Value.int 2)] "k".data).or
          (dictGet [("a".data, Value.int 1), ("k".data, Value.str "old".data)]
            "k".data)).map Value.pyStr :=
  ⟨by decide,
   link_parameters_merge_caller_wins
     [("a".data, Value.int 1), ("k".data, Value.str "old".data)]
     [("k".data, Value.int 2)] "k".data (by decide)⟩

/-- C8: on every run, whether the runbook is found or freshly created, the
step replaces the draft content with the freshly read source body and then
publishes, awaiting the publish poller before returning; no earlier call
replaces content or publishes, so publish is never skipped on content
comparison. -/
theorem runbook_always_replaced_and_published
    (fs : PyStr → PyStr) (present : Bool) (runbook_name file_path : PyStr) :
    ∃ pre,
      import_and_publish_runbook fs present runbook_name file_path =
        pre ++ [RunbookCall.begin_replace_content runbook_name (fs file_path),
                RunbookCall.begin_publish runbook_name,
                RunbookCall.poller_result runbook_name] ∧
      (pre.all fun c => !c.isReplaceContent && !c.isPublish) = true := by
  cases present
  · exact ⟨_, rfl, rfl⟩
  · exact ⟨_, rfl, rfl⟩

/-- C9 counterexample: with the automation account already present and the
identity information absent, `ensure_automation_account` issues no
identity-enabling update — the `get` is its only remote call — contrary to
the claimed self-healing path. -/
theorem ensure_automation_account_no_self_healing :
    (ensure_automation_account true "eastus".data
        { type := none, principal_id := none } [] [] "u".data).1
      = [AcctCall.automation_account_get] ∧
    AcctCall.begin_update_by_id_identity ∉
      (ensure_automation_account true "eastus".data
        { type := none, principal_id := none } [] [] "u".data).1 := by
  constructor
  · rfl
  · decide

/-- C9 amended: when the account `get` succeeds, the operation performs no
further remote call whatever the account's identity state (it only prints
guidance); the identity-enabling update is issued only on the NotFound
creation path. -/
theorem ensure_automation_account_found_get_only
    (location : PyStr) (idres : ManagedIdentity) (rds : List RoleDefinition)
    (ras : List RoleAssignment) (uuid : PyStr) :
    ensure_automation_account true location idres rds ras uuid
      = ([AcctCall.automation_account_get], .ok ()) := rfl

/-- C10 counterexample: the loaded desired-state structures are not
read-only — with declared Parameters `a="1"` and caller params `b="2"`,
`ensure_schedule_link` leaves the schedule's Parameters mapping changed. -/
theorem ensure_schedule_link_mutates_schedule :
    (ensure_schedule_link [] "u".data "S1".data
        { RunbookName := "RB".data, Frequency := "Day".data,
          StartTime := "2024-01-01T00:00:00".data,
          Parameters := some [("a".data, Value.str "1".data)] }
        [("b".data, Value.str "2".data)]).1
      ≠ { RunbookName := "RB".data, Frequency := "Day".data,
          StartTime := "2024-01-01T00:00:00".data,
          Parameters := some [("a".data, Value.str "1".data)] } := by
  decide

/-- C10 amended: `ensure_schedule_link` leaves every loaded field
unchanged except the schedule's Parameters mapping, which it mutates in
place into the merge with the caller-supplied params whenever the schedule
declares one (a schedule without a Parameters key is untouched); v2's
`ensure_schedule_and_link` performs the identical in-place mutation when
the required Interval key is present (its absence raises before the
mutation, leaving the schedule untouched). -/
theorem ensure_schedule_link_mutates_only_parameters
    (links : List JobSchedule) (uuid name : PyStr) (sd : ScheduleDef)
    (params : List (PyStr × Value)) :
    (ensure_schedule_link links uuid name sd params).1.RunbookName = sd.RunbookName ∧
    (ensure_schedule_link links uuid name sd params).1.Frequency = sd.Frequency ∧
    (ensure_schedule_link links uuid name sd params).1.StartTime = sd.StartTime ∧
    (ensure_schedule_link links uuid name sd params).1.Description = sd.Description ∧
    (ensure_schedule_link links uuid name sd params).1.Interval = sd.Interval ∧
    (ensure_schedule_link links uuid name sd params).1.TimeZone = sd.TimeZone ∧
    (ensure_schedule_link links uuid name sd params).1.EndTime = sd.EndTime ∧
    (ensure_schedule_link links uuid name sd params).1.IsEnabled = sd.IsEnabled ∧
    ((ensure_schedule_link links uuid name sd params).1.Parameters
      = sd.Parameters.map fun ps => dict_update ps params) ∧
    ∀ present : Bool,
      (ensure_schedule_and_link present links uuid name sd params).1
        = match sd.Interval with
          | some _ => (ensure_schedule_link links uuid name sd params).1
          | none => sd := by
  have h1 : (ensure_schedule_link links uuid name sd params).1 =
      (match sd.Parameters with
       | some ps =>
         { sd with Parameters := some (dict_update ps params) }
       | none => sd) := by
    rcases hp : sd.Parameters with _ | ps <;>
      · simp only [ensure_schedule_link, hp, Option.getD]
        split <;> rfl
  have hv2 : ∀ present : Bool,
      (ensure_schedule_and_link present links uuid name sd params).1
        = match sd.Interval with
          | some _ => (ensure_schedule_link links uuid name sd params).1
          | none => sd := by
    intro present
    rcases hi : sd.Interval with _ | i
    · simp [ensure_schedule_and_link, hi]
    · by_cases hemp : (links.filter fun js =>
          js.schedule_name == name && js.runbook_name == sd.RunbookName).isEmpty = true <;>
        simp [ensure_schedule_and_link, ensure_schedule_link, hi, hemp]
  refine ⟨?_, ?_, ?_, ?_, ?_, ?_, ?_, ?_, ?_, hv2⟩
  all_goals
    rw [h1]
    rcases hp : sd.Parameters with _ | ps <;> simp [hp]

/-- With the schedule present remotely, v1 `ensure_schedule` either fails
its validation before any remote call or performs exactly the `get`. -/
theorem ensure_schedule_present_cases (tzdb : Tzdb) (ce : Option Bool)
    (name : PyStr) (sd : ScheduleDef) :
    ensure_schedule tzdb true ce name sd = ([SchedCall.get name], .ok ())
    ∨ ∃ e, ensure_schedule tzdb true ce name sd = ([], .error e) := by
  simp only [ensure_schedule]
  split
  · right; exact ⟨_, rfl⟩
  · split
    · right; exact ⟨_, rfl⟩
    · split
      · split
        · right; exact ⟨_, rfl⟩
        · left; rfl
      · left; rfl

/-- C1: for a schedule name already present in the remote state, v1
`ensure_schedule` issues no schedule create-or-update and no update (on
success its only remote call is the `get`), and v2
`ensure_schedule_and_link` likewise issues no schedule mutation. -/
theorem schedule_skip_on_present
    (tzdb : Tzdb) (ce : Option Bool) (name : PyStr) (sd : ScheduleDef)
    (links : List JobSchedule) (uuid : PyStr) (params : List (PyStr × Value)) :
    ((ensure_schedule tzdb true ce name sd).1.all fun c => !c.isMutation) = true
    ∧ ((ensure_schedule tzdb true ce name sd).2 = .ok () →
        (ensure_schedule tzdb true ce name sd).1 = [SchedCall.get name])
    ∧ ((ensure_schedule_and_link true links uuid name sd params).2.1.all
        fun c => !c.isScheduleMutation) = true := by
  refine ⟨?_, ?_, ?_⟩
  · rcases ensure_schedule_present_cases tzdb ce name sd with h | ⟨e, h⟩ <;>
      rw [h] <;> rfl
  · intro hok
    rcases ensure_schedule_present_cases tzdb ce name sd with h | ⟨e, h⟩
    · rw [h]
    · rw [h] at hok
      simp at hok
  · simp only [ensure_schedule_and_link]
    split
    · rfl
    · split <;> rfl

/-- Witness for C1 at a concrete present schedule: the trace is exactly
the `get`. -/
theorem schedule_skip_on_present_witness :
    (ensure_schedule (fun _ => none) true none "S1".data
        { RunbookName := "RB".data, Frequency := "Day".data,
          StartTime := "2024-01-01T10:00:00".data }).1
      = [SchedCall.get "S1".data] :=
  (schedule_skip_on_present (fun _ => none) none "S1".data
    { RunbookName := "RB".data, Frequency := "Day".data,
      StartTime := "2024-01-01T10:00:00".data } [] "u".data []).2.1 (by decide)

/-- C3: a desired schedule whose UTC-normalized EndTime compares less than
or equal to its UTC-normalized StartTime makes `ensure_schedule` raise the
validation error before issuing any remote call (the call trace is
empty). -/
theorem schedule_end_before_start_validation
    (tzdb : Tzdb) (present : Bool) (ce : Option Bool) (name : PyStr)
    (sd : ScheduleDef) (et s_utc e_utc : PyStr)
    (hend : sd.EndTime = some et) (hne : et.isEmpty = false)
    (hs : convert_to_utc tzdb sd.StartTime (sd.TimeZone.getD "UTC".data) = .ok s_utc)
    (he : convert_to_utc tzdb et (sd.TimeZone.getD "UTC".data) = .ok e_utc)
    (hle : pyLe e_utc s_utc = true) :
    ensure_schedule tzdb present ce name sd
      = ([], .error ("EndTime ".data ++ et ++ " must be after StartTime ".data
          ++ sd.StartTime)) := by
  simp [ensure_schedule, hend, hs, he, hne, hle, Except.map]

/-- Witness for C3: EndTime one day before StartTime (both UTC) raises
with an empty call trace. -/
theorem schedule_end_before_start_validation_witness :
    ensure_schedule (fun _ => none) true none "S1".data
        { RunbookName := "RB".data, Frequency := "Day".data,
          StartTime := "2024-01-02T00:00:00".data,
          EndTime := some "2024-01-01T00:00:00".data }
      = ([], .error ("EndTime ".data ++ "2024-01-01T00:00:00".data
          ++ " must be after StartTime ".data ++ "2024-01-02T00:00:00".data)) :=
  schedule_end_before_start_validation (fun _ => none) true none "S1".data
    { RunbookName := "RB".data, Frequency := "Day".data,
      StartTime := "2024-01-02T00:00:00".data,
      EndTime := some "2024-01-01T00:00:00".data }
    "2024-01-01T00:00:00".data "2024-01-02T00:00:00Z".data
    "2024-01-01T00:00:00Z".data rfl rfl (by decide) (by decide) (by decide)

theorem filter_isEmpty_eq_not_any {α : Type} (l : List α) (p : α → Bool) :
    (l.filter p).isEmpty = !l.any p := by
  induction l with
  | nil => rfl
  | cons a l ih =>
    by_cases h : p a <;> simp [List.filter_cons, h, ih]

/-- C4: `ensure_schedule_link` preserves "at most one link per
(schedule, runbook) pair": it skips creation when a matching link exists,
otherwise appends exactly one link under the fresh random id; existing
links are only ever extended, never rewritten; and the link portion of v2
`ensure_schedule_and_link` produces the same link state. -/
theorem link_at_most_one_per_pair
    (links : List JobSchedule) (uuid name : PyStr) (sd : ScheduleDef)
    (params : List (PyStr × Value)) :
    (∀ s r, countLinks links s r ≤ 1 →
        countLinks ((ensure_schedule_link links uuid name sd params).2.2) s r ≤ 1)
    ∧ (1 ≤ countLinks links name sd.RunbookName →
        (ensure_schedule_link links uuid name sd params).2.2 = links
        ∧ ((ensure_schedule_link links uuid name sd params).2.1.all
            fun c => !c.isCreate) = true)
    ∧ (countLinks links name sd.RunbookName = 0 →
        (ensure_schedule_link links uuid name sd params).2.2
          = links ++ [{ job_schedule_id := uuid, schedule_name := name,
                        runbook_name := sd.RunbookName,
                        parameters := link_params_payload
                          (dict_update (sd.Parameters.getD []) params) }]
        ∧ countLinks ((ensure_schedule_link links uuid name sd params).2.2)
            name sd.RunbookName = 1)
    ∧ (∃ t, (ensure_schedule_link links uuid name sd params).2.2 = links ++ t)
    ∧ (∀ (present : Bool) (i : Int), sd.Interval = some i →
        (ensure_schedule_and_link present links uuid name sd params).2.2.1
          = (ensure_schedule_link links uuid name sd params).2.2) := by
  have hcount : countLinks links name sd.RunbookName =
      (links.filter fun js =>
        js.schedule_name == name && js.runbook_name == sd.RunbookName).length := rfl
  have hv2 : ∀ (present : Bool) (i : Int), sd.Interval = some i →
      (ensure_schedule_and_link present links uuid name sd params).2.2.1
        = (ensure_schedule_link links uuid name sd params).2.2 := by
    intro present i hi
    by_cases hemp : (links.filter fun js =>
        js.schedule_name == name && js.runbook_name == sd.RunbookName).isEmpty = true <;>
      simp [ensure_schedule_and_link, ensure_schedule_link, hi, hemp]
  by_cases hemp : (links.filter fun js =>
      js.schedule_name == name && js.runbook_name == sd.RunbookName).isEmpty = true
  · have hfil : (links.filter fun js =>
        js.schedule_name == name && js.runbook_name == sd.RunbookName) = [] := by
      cases hf : links.filter fun js =>
          js.schedule_name == name && js.runbook_name == sd.RunbookName
      · rfl
      · rw [hf] at hemp
        simp [List.isEmpty] at hemp
    have hzero : countLinks links name sd.RunbookName = 0 := by
      rw [hcount, hfil]
      rfl
    have h22 : (ensure_schedule_link links uuid name sd params).2.2 =
        links ++ [{ job_schedule_id := uuid, schedule_name := name,
                    runbook_name := sd.RunbookName,
                    parameters := link_params_payload
                      (dict_update (sd.Parameters.getD []) params) }] := by
      simp [ensure_schedule_link, hemp]
    refine ⟨?_, ?_, ?_, ⟨_, h22⟩, hv2⟩
    · intro s r hsr
      rw [h22, countLinks_append_single]
      by_cases hm : ((name == s) && (sd.RunbookName == r)) = true
      · simp only [hm, if_pos]
        rw [Bool.and_eq_true, beq_iff_eq, beq_iff_eq] at hm
        rw [← hm.1, ← hm.2, hzero]
      · simp only [hm]
        simpa using hsr
    · intro h1
      rw [hzero] at h1
      exact absurd h1 (by omega)
    · intro _
      refine ⟨h22, ?_⟩
      rw [h22, countLinks_append_single, hzero]
      simp
  · have h22 : (ensure_schedule_link links uuid name sd params).2.2 = links := by
      simp [ensure_schedule_link, hemp]
    have h21 : (ensure_schedule_link links uuid name sd params).2.1
        = [LinkCall.list_by_automation_account] := by
      simp [ensure_schedule_link, hemp]
    refine ⟨?_, ?_, ?_, ⟨[], by rw [h22, List.append_nil]⟩, hv2⟩
    · intro s r hsr
      rw [h22]; exact hsr
    · intro _
      exact ⟨h22, by rw [h21]; rfl⟩
    · intro h0
      rw [hcount] at h0
      cases hf : links.filter fun js =>
          js.schedule_name == name && js.runbook_name == sd.RunbookName
      · rw [hf] at hemp
        exact absurd rfl hemp
      · rw [hf] at h0
        simp at h0

/-- Witness for C4: an empty remote link list gains exactly one link for
the pair, under the fresh id. -/
theorem link_at_most_one_per_pair_witness :
    (ensure_schedule_link [] "u".data "S1".data
        { RunbookName := "RB".data, Frequency := "Day".data,
          StartTime := "2024-01-01T00:00:00".data } []).2.2
      = [] ++ [{ job_schedule_id := "u".data, schedule_name := "S1".data,
                 runbook_name := "RB".data,
                 parameters := link_params_payload (dict_update [] []) }]
    ∧ countLinks ((ensure_schedule_link [] "u".data "S1".data
        { RunbookName := "RB".data, Frequency := "Day".data,
          StartTime := "2024-01-01T00:00:00".data } []).2.2)
        "S1".data "RB".data = 1 :=
  (link_at_most_one_per_pair [] "u".data "S1".data
    { RunbookName := "RB".data, Frequency := "Day".data,
      StartTime := "2024-01-01T00:00:00".data } []).2.2.1 (by decide)

/-- C5: `ensure_role_assignment` resolves the role to the id of the first
matching role definition, failing when none matches (with no create
issued); with a resolved id it creates nothing when an assignment with the
same principal and (case-insensitively) same definition id exists, and
otherwise creates exactly one binding under the fresh random assignment
name. -/
theorem role_assignment_resolution_and_convergence
    (role_defs : List RoleDefinition) (ras : List RoleAssignment)
    (uuid pid : PyStr) :
    (role_defs = [] →
      (ensure_role_assignment role_defs ras uuid pid).2
          = .error "Role definition not found".data
        ∧ ((ensure_role_assignment role_defs ras uuid pid).1.all
            fun c => !c.isCreate) = true)
    ∧ ∀ rd rest, role_defs = rd :: rest →
        ((ras.any fun ra => ra.principal_id == pid
            && pyLower ra.role_definition_id == pyLower rd.id) = true →
          ensure_role_assignment role_defs ras uuid pid
            = ([RoleCall.role_definitions_list,
                RoleCall.role_assignments_list_for_scope], .ok ()))
        ∧ ((ras.any fun ra => ra.principal_id == pid
            && pyLower ra.role_definition_id == pyLower rd.id) = false →
          ensure_role_assignment role_defs ras uuid pid
            = ([RoleCall.role_definitions_list,
                RoleCall.role_assignments_list_for_scope,
                RoleCall.role_assignments_create uuid pid rd.id], .ok ())) := by
  constructor
  · intro h
    subst h
    exact ⟨rfl, rfl⟩
  · intro rd rest h
    subst h
    constructor
    · intro hany
      simp [ensure_role_assignment, find_role_definition_id,
        filter_isEmpty_eq_not_any, hany]
    · intro hany
      simp [ensure_role_assignment, find_role_definition_id,
        filter_isEmpty_eq_not_any, hany]

/-- Witness for C5: no existing assignment for the principal, one role
definition — exactly one create under the fresh id and the first
definition's id. -/
theorem role_assignment_resolution_and_convergence_witness :
    ensure_role_assignment [{ id := "ID1".data }] [] "u".data "p".data
      = ([RoleCall.role_definitions_list,
          RoleCall.role_assignments_list_for_scope,
          RoleCall.role_assignments_create "u".data "p".data "ID1".data],
         .ok ()) :=
  (((role_assignment_resolution_and_convergence [{ id := "ID1".data }] []
      "u".data "p".data).2 { id := "ID1".data } [] rfl).2) (by decide)

theorem run_steps_append_of_ok {σ ε : Type}
    (pre rest : List (σ → σ × Except ε Unit)) (s s₁ : σ)
    (h : run_steps pre s = (s₁, .ok ())) :
    run_steps (pre ++ rest) s = run_steps rest s₁ := by
  induction pre generalizing s with
  | nil =>
    simp only [run_steps] at h
    cases h
    rfl
  | cons fn pre ih =>
    simp only [run_steps, List.cons_append] at h ⊢
    rcases hr : run_step fn s with ⟨s', r⟩
    rw [hr] at h
    cases r with
    | ok u => exact ih s' h
    | error e => simp at h

/-- C6: if a step raises, the step runner re-raises the same error, no
later step runs (the final state is exactly the one the failing step left,
with the earlier steps' effects kept and nothing rolled back), the run
exits with status 1; and within the variables step, an upsert failure on
the second variable stops the loop, so later variables are never
attempted and the error references the failing one. -/
theorem fail_fast_abort {σ ε : Type}
    (pre post : List (σ → σ × Except ε Unit)) (f : σ → σ × Except ε Unit)
    (s s₁ s₂ : σ) (e : ε)
    (hpre : run_steps pre s = (s₁, .ok ()))
    (hf : f s₁ = (s₂, .error e)) :
    run_steps (pre ++ f :: post) s = (s₂, .error e)
    ∧ main_exit (pre ++ f :: post) s = (s₂, 1)
    ∧ ∀ (ε' : Type) (upsert : VariableProps → Except ε' Unit)
        (a b : VarDef) (rest : List VarDef) (e' : ε'),
        upsert (variable_props a) = .ok () →
        upsert (variable_props b) = .error e' →
        create_variables upsert (a :: b :: rest)
          = ([a.name, b.name], .error e') := by
  have h1 : run_steps (pre ++ f :: post) s = (s₂, .error e) := by
    rw [run_steps_append_of_ok pre (f :: post) s s₁ hpre]
    simp only [run_steps, run_step, hf]
  refine ⟨h1, ?_, ?_⟩
  · simp only [main_exit, h1]
  · intro ε' upsert a b rest e' ha hb
    simp [create_variables, ha, hb]

/-- Witness for C6: a three-step pipeline over a counter state whose
second step raises, and a three-variable upsert whose second upsert
raises. -/
theorem fail_fast_abort_witness :
    run_steps ([fun n : Nat => (n + 1, (Except.ok () : Except Nat Unit))] ++
        (fun n : Nat => (n * 10, (Except.error 7 : Except Nat Unit))) ::
        [fun n : Nat => (n + 100, (Except.ok () : Except Nat Unit))]) 0
      = (10, Except.error 7)
    ∧ main_exit ([fun n : Nat => (n + 1, (Except.ok () : Except Nat Unit))] ++
        (fun n : Nat => (n * 10, (Except.error 7 : Except Nat Unit))) ::
        [fun n : Nat => (n + 100, (Except.ok () : Except Nat Unit))]) 0
      = (10, 1)
    ∧ create_variables
        (fun p => if p.name = "v2".data then (Except.error 5 : Except Nat Unit)
                  else Except.ok ())
        [{ name := "v1".data, Value := Value.int 1 },
         { name := "v2".data, Value := Value.int 2 },
         { name := "v3".data, Value := Value.int 3 }]
      = (["v1".data, "v2".data], Except.error 5) :=
  have h := fail_fast_abort
    [fun n : Nat => (n + 1, (Except.ok () : Except Nat Unit))]
    [fun n : Nat => (n + 100, (Except.ok () : Except Nat Unit))]
    (fun n : Nat => (n * 10, (Except.error 7 : Except Nat Unit)))
    0 1 10 7 rfl rfl
  ⟨h.1, h.2.1,
   h.2.2 Nat
     (fun p => if p.name = "v2".data then (Except.error 5 : Except Nat Unit)
               else Except.ok ())
     { name := "v1".data, Value := Value.int 1 }
     { name := "v2".data, Value := Value.int 2 }
     [{ name := "v3".data, Value := Value.int 3 }] 5
     (by decide) (by decide)⟩

theorem endsWithZ_strftimeZ (dt : DateTime) : endsWithZ (strftimeZ dt) = true := by
  unfold endsWithZ strftimeZ
  rw [List.getLast?_concat]
  rfl

/-- C2: the time normalizer is a pure function; with an absent or (case-
insensitively) UTC zone it returns the input with a trailing Z ensured;
otherwise it converts the parsed naive local time by the zone's offset and
formats to second precision ending in Z; and the two reference examples
hold, the New York one under an EST (UTC-5) zone database. -/
theorem toUtc_normalization (tzdb : Tzdb) (iso tz : PyStr) :
    (is_utc_zone tz = true →
      convert_to_utc tzdb iso tz
        = .ok (if endsWithZ iso then iso else iso ++ ['Z']))
    ∧ (∀ (off : DateTime → Int) (dt : DateTime),
        is_utc_zone tz = false → fromisoformat iso = some dt →
        tzdb tz = some off →
        convert_to_utc tzdb iso tz
          = .ok (strftimeZ (fromEpochSeconds (toEpochSeconds dt - off dt)))
        ∧ endsWithZ (strftimeZ (fromEpochSeconds (toEpochSeconds dt - off dt)))
            = true)
    ∧ convert_to_utc tzdb "2024-01-01T10:00:00".data "UTC".data
        = .ok "2024-01-01T10:00:00Z".data
    ∧ (∀ tzdb' : Tzdb,
        tzdb' "America/New_York".data = some (fun _ => -18000) →
        convert_to_utc tzdb' "2024-01-01T10:00:00".data "America/New_York".data
          = .ok "2024-01-01T15:00:00Z".data) := by
  refine ⟨?_, ?_, rfl, ?_⟩
  · intro h
    simp [convert_to_utc, h]
  · intro off dt h1 h2 h3
    refine ⟨?_, endsWithZ_strftimeZ _⟩
    simp [convert_to_utc, h1, h2, h3]
  · intro tzdb' h
    have h1 : is_utc_zone "America/New_York".data = false := by decide
    have h2 : fromisoformat "2024-01-01T10:00:00".data
        = some ⟨2024, 1, 1, 10, 0, 0⟩ := by decide
    simp only [convert_to_utc, h1, h2, h, Bool.false_eq_true, if_false]
    decide

/-- Witness for C2: the UTC branch at a lowercase zone name, and the
New York example under a concrete EST database. -/
theorem toUtc_normalization_witness :
    is_utc_zone "utc".data = true
    ∧ convert_to_utc (fun _ => none) "2024-06-01T00:00:00".data "utc".data
      = .ok (if endsWithZ "2024-06-01T00:00:00".data
             then "2024-06-01T00:00:00".data
             else "2024-06-01T00:00:00".data ++ ['Z'])
    ∧ convert_to_utc
        (fun z => if z = "America/New_York".data then some (fun _ => -18000)
                  else none)
        "2024-01-01T10:00:00".data "America/New_York".data
      = .ok "2024-01-01T15:00:00Z".data :=
  ⟨by decide,
   (toUtc_normalization (fun _ => none) "2024-06-01T00:00:00".data
     "utc".data).1 (by decide),
   (toUtc_normalization
     (fun z => if z = "America/New_York".data then some (fun _ => -18000)
               else none)
     "2024-01-01T10:00:00".data "America/New_York".data).2.2.2
     (fun z => if z = "America/New_York".data then some (fun _ => -18000)
               else none) rfl⟩

end AzureAutomation
